import Mathlib

/-!
Verification of the bareunpy client SDK's normalization/accessor and
error-classification layer, shallowly embedded from the Python sources
(`_tagger.py`, `_tokenizer.py`, `_custom_dict.py`, `_custom_dict_client.py`,
`_lang_service_client.py`, `_revision_service_client.py`, `_corrector.py`).
-/

namespace Bareunpy

/-- The SDK version string, from `bareunpy/__init__.py` (`version = "1.4.1"`). -/
def version : String := "1.4.1"

/-! ## External protobuf data model (bareun.language_service_pb2)

The protobuf message types live in the external `bareun` package; they are
modelled here with exactly the fields the client code reads. -/

/-- The `text` submessage of a unit: the client only reads `.content`. -/
structure TextSpan where
  content : String
deriving DecidableEq, Repr

/-- Morpheme part-of-speech tags used by the client code (`Morpheme.Tag`).
The external enum is larger; only tags the client mentions, plus a few from
the doc examples, are modelled. -/
inductive Tag
  | NNG | NNP | NP | NNB | VV | VX | VA | JKS | JKO | XSA | EC | EP | EF | SF | MAG | IC
deriving DecidableEq, Repr

/-- Models `Morpheme.Tag.Name`: the protobuf enum-name function. -/
def tagName : Tag → String
  | .NNG => "NNG" | .NNP => "NNP" | .NP => "NP" | .NNB => "NNB"
  | .VV => "VV" | .VX => "VX" | .VA => "VA"
  | .JKS => "JKS" | .JKO => "JKO" | .XSA => "XSA"
  | .EC => "EC" | .EP => "EP" | .EF => "EF" | .SF => "SF"
  | .MAG => "MAG" | .IC => "IC"

/-- Models `Morpheme.OutOfVocab.Name` on the external enum's numeric values;
the client only distinguishes the default value 0 from the rest. -/
def oovName (n : Nat) : String :=
  if n = 0 then "IN_WORD_EMBEDDING" else "OUT_OF_VOCAB"

/-- A morpheme unit (full morphological analysis). `probability` is a float
in the protobuf; modelled as a rational. -/
structure Morpheme where
  text : TextSpan
  tag : Tag
  out_of_vocab : Nat
  probability : Rat
deriving DecidableEq, Repr

structure Token where
  morphemes : List Morpheme
deriving DecidableEq, Repr

structure Sentence where
  tokens : List Token
deriving DecidableEq, Repr

structure AnalyzeSyntaxResponse where
  sentences : List Sentence
deriving DecidableEq, Repr

/-- A segment unit (lightweight tokenization) with a one-letter hint. -/
structure Segment where
  text : TextSpan
  hint : String
deriving DecidableEq, Repr

structure SegmentToken where
  segments : List Segment
deriving DecidableEq, Repr

structure SegmentSentence where
  tokens : List SegmentToken
deriving DecidableEq, Repr

structure TokenizeResponse where
  sentences : List SegmentSentence
deriving DecidableEq, Repr

/-! ## Python float formatting used by `Tagged._pos`

`f"{p:5.3f}"`: fixed-point, three digits after the point, padded on the left
with spaces to a minimum width of five. -/

/-- Left-pad a fractional part below 1000 with zeros to three digits. -/
def padNat3 (n : Nat) : String :=
  if n < 10 then "00" ++ toString n
  else if n < 100 then "0" ++ toString n
  else toString n

/-- Models the Python format `f"{p:5.3f}"` on rationals. -/
def fmtProb (p : Rat) : String :=
  let scaled : Int := ⌊p * 1000 + 1 / 2⌋
  let ip : Int := scaled / 1000
  let fp : Nat := (scaled % 1000).toNat
  let s := toString ip ++ "." ++ padNat3 fp
  if s.length < 5 then String.mk (List.replicate (5 - s.length) ' ') ++ s else s

/-! ## Tagged (bareunpy/_tagger.py) -/

/-- Result of the per-morpheme formatter `Tagged._pos`: a Python string,
a 2-tuple or a 4-tuple. -/
inductive PosResult
  | s (v : String)
  | pair (text tag : String)
  | quad (text tag oov : String) (prob : Rat)
deriving DecidableEq, Repr

/-- `Tagged` result wrapper: `phrase` and the protobuf response `r`. -/
structure Tagged where
  phrase : String
  r : AnalyzeSyntaxResponse
deriving DecidableEq, Repr

/-- `Tagged.__init__`: substitutes the canonical empty response (and empty
phrase) when the result is absent (`None`). -/
def Tagged.init (phrase : String) (res : Option AnalyzeSyntaxResponse) : Tagged :=
  match res with
  | none => { phrase := "", r := { sentences := [] } }
  | some r => { phrase := phrase, r := r }

/-- `Tagged._pos(m, join, detail)` from `_tagger.py` lines 73-89. -/
def Tagged.posFormat (m : Morpheme) (join detail : Bool) : PosResult :=
  if join then
    if detail then
      let p := if m.probability > 0 then ":" ++ fmtProb m.probability else ""
      let oov := if m.out_of_vocab ≠ 0 then "#" ++ oovName m.out_of_vocab else ""
      .s (m.text.content ++ "/" ++ tagName m.tag ++ p ++ oov)
    else
      .s (m.text.content ++ "/" ++ tagName m.tag)
  else
    if detail then
      .quad m.text.content (tagName m.tag) (oovName m.out_of_vocab) m.probability
    else
      .pair m.text.content (tagName m.tag)

/-- `Tagged.pos` returns a flat list or a per-token grouped list. -/
inductive PosOutput
  | flat (xs : List PosResult)
  | grouped (xss : List (List PosResult))
deriving DecidableEq, Repr

/-- `Tagged.pos(flatten, join, detail)` from `_tagger.py` lines 91-105. -/
def Tagged.pos (t : Tagged) (flatten join detail : Bool) : PosOutput :=
  if flatten then
    .flat (t.r.sentences.flatMap fun s =>
      s.tokens.flatMap fun token =>
        token.morphemes.map fun m => Tagged.posFormat m join detail)
  else
    .grouped (t.r.sentences.flatMap fun s =>
      s.tokens.map fun token =>
        token.morphemes.map fun m => Tagged.posFormat m join detail)

/-- `Tagged.sentences()`. -/
def Tagged.sentences (t : Tagged) : List Sentence :=
  t.r.sentences

/-- `Tagged.morphs()`. -/
def Tagged.morphs (t : Tagged) : List String :=
  t.r.sentences.flatMap fun s =>
    s.tokens.flatMap fun token =>
      token.morphemes.map fun m => m.text.content

/-- `Tagged.nouns()`: filter on tags NNP, NNG, NP, NNB. -/
def Tagged.nouns (t : Tagged) : List String :=
  t.r.sentences.flatMap fun s =>
    s.tokens.flatMap fun token =>
      (token.morphemes.filter fun m =>
        [Tag.NNP, Tag.NNG, Tag.NP, Tag.NNB].contains m.tag).map fun m => m.text.content

/-- `Tagged.verbs()`: filter on tag VV. -/
def Tagged.verbs (t : Tagged) : List String :=
  t.r.sentences.flatMap fun s =>
    s.tokens.flatMap fun token =>
      (token.morphemes.filter fun m => [Tag.VV].contains m.tag).map fun m => m.text.content

/-! ## Tokenized (bareunpy/_tokenizer.py) -/

/-- Result of the per-segment formatter `Tokenized._segment`: a Python
string or a 2-tuple. -/
inductive SegResult
  | s (v : String)
  | pair (text hint : String)
deriving DecidableEq, Repr

structure Tokenized where
  phrase : String
  r : TokenizeResponse
deriving DecidableEq, Repr

/-- `Tokenized.__init__`: substitutes the canonical empty response when the
result is absent. -/
def Tokenized.init (phrase : String) (res : Option TokenizeResponse) : Tokenized :=
  match res with
  | none => { phrase := "", r := { sentences := [] } }
  | some r => { phrase := phrase, r := r }

/-- `Tokenized._segment(m, join, detail)` from `_tokenizer.py` lines 72-83. -/
def Tokenized.segFormat (m : Segment) (join detail : Bool) : SegResult :=
  if join then
    if detail then .s (m.text.content ++ "/" ++ m.hint)
    else .s m.text.content
  else
    if detail then .pair m.text.content m.hint
    else .s m.text.content

/-- `Tokenized.seg` returns a flat list or a per-token grouped list. -/
inductive SegOutput
  | flat (xs : List SegResult)
  | grouped (xss : List (List SegResult))
deriving DecidableEq, Repr

/-- `Tokenized.seg(flatten, join, detail)` from `_tokenizer.py` lines 85-99. -/
def Tokenized.seg (t : Tokenized) (flatten join detail : Bool) : SegOutput :=
  if flatten then
    .flat (t.r.sentences.flatMap fun s =>
      s.tokens.flatMap fun token =>
        token.segments.map fun m => Tokenized.segFormat m join detail)
  else
    .grouped (t.r.sentences.flatMap fun s =>
      s.tokens.map fun token =>
        token.segments.map fun m => Tokenized.segFormat m join detail)

/-- `Tokenized.sentences()`. -/
def Tokenized.sentences (t : Tokenized) : List SegmentSentence :=
  t.r.sentences

/-- `Tokenized.segments()`. -/
def Tokenized.segments (t : Tokenized) : List String :=
  t.r.sentences.flatMap fun s =>
    s.tokens.flatMap fun token =>
      token.segments.map fun m => m.text.content

/-- The common shape of the per-category extractors of `Tokenized`:
nested comprehension filtering segments by hint letter. -/
def Tokenized.byHint (t : Tokenized) (c : String) : List String :=
  t.r.sentences.flatMap fun s =>
    s.tokens.flatMap fun token =>
      (token.segments.filter fun m => m.hint == c).map fun m => m.text.content

/-- `Tokenized.nouns()`: hint N. -/
def Tokenized.nouns (t : Tokenized) : List String := t.byHint "N"

/-- `Tokenized.verbs()`: hint V. -/
def Tokenized.verbs (t : Tokenized) : List String := t.byHint "V"

/-- `Tokenized.predicates()`: hint V. -/
def Tokenized.predicates (t : Tokenized) : List String := t.byHint "V"

/-- `Tokenized.substantives()`: hint N. -/
def Tokenized.substantives (t : Tokenized) : List String := t.byHint "N"

/-- `Tokenized.symbols()`: hint S. -/
def Tokenized.symbols (t : Tokenized) : List String := t.byHint "S"

/-- `Tokenized.adverbs()`: hint A. -/
def Tokenized.adverbs (t : Tokenized) : List String := t.byHint "A"

/-- `Tokenized.prenouns()`: hint M. -/
def Tokenized.prenouns (t : Tokenized) : List String := t.byHint "M"

/-- `Tokenized.postpositions()`: hint J. -/
def Tokenized.postpositions (t : Tokenized) : List String := t.byHint "J"

/-- `Tokenized.interjections()`: hint I. -/
def Tokenized.interjections (t : Tokenized) : List String := t.byHint "I"

/-- `Tokenized.endings()`: hint E. -/
def Tokenized.endings (t : Tokenized) : List String := t.byHint "E"

/-! ## JSON projection (`as_json` / `as_json_str`)

`MessageToDict(r, True)` and `json.dumps(d, ensure_ascii=False, indent=2)`
come from external libraries (google.protobuf, json). They are modelled
here on the message shapes above: a structural mapping with default values
included, serialized with two-space indentation and literal non-ASCII. -/

inductive Json
  | str (s : String)
  | num (n : Int)
  | rat (q : Rat)
  | arr (xs : List Json)
  | obj (fields : List (String × Json))

def TextSpan.toJson (t : TextSpan) : Json :=
  .obj [("content", .str t.content)]

def Morpheme.toJson (m : Morpheme) : Json :=
  .obj [("text", m.text.toJson), ("tag", .str (tagName m.tag)),
        ("outOfVocab", .str (oovName m.out_of_vocab)),
        ("probability", .rat m.probability)]

def Token.toJson (tok : Token) : Json :=
  .obj [("morphemes", .arr (tok.morphemes.map Morpheme.toJson))]

def Sentence.toJson (s : Sentence) : Json :=
  .obj [("tokens", .arr (s.tokens.map Token.toJson))]

/-- Models `MessageToDict(r, True)` on an `AnalyzeSyntaxResponse`. -/
def messageToDictTagged (r : AnalyzeSyntaxResponse) : Json :=
  .obj [("sentences", .arr (r.sentences.map Sentence.toJson))]

def Segment.toJson (m : Segment) : Json :=
  .obj [("text", m.text.toJson), ("hint", .str m.hint)]

def SegmentToken.toJson (tok : SegmentToken) : Json :=
  .obj [("segments", .arr (tok.segments.map Segment.toJson))]

def SegmentSentence.toJson (s : SegmentSentence) : Json :=
  .obj [("tokens", .arr (s.tokens.map SegmentToken.toJson))]

/-- Models `MessageToDict(r, True)` on a `TokenizeResponse`. -/
def messageToDictTokenized (r : TokenizeResponse) : Json :=
  .obj [("sentences", .arr (r.sentences.map SegmentSentence.toJson))]

def indentStr (lvl : Nat) : String :=
  String.mk (List.replicate (2 * lvl) ' ')

mutual

/-- Models `json.dumps(-, ensure_ascii=False, indent=2)` at nesting level
`lvl`. -/
def dumpJson (lvl : Nat) : Json → String
  | .str s => "\x22" ++ s ++ "\x22"
  | .num n => toString n
  | .rat q => toString q
  | .arr [] => "[]"
  | .arr (x :: xs) =>
      "[\n" ++ dumpItems (lvl + 1) (x :: xs) ++ "\n" ++ indentStr lvl ++ "]"
  | .obj [] => "\x7b\x7d"
  | .obj (f :: fs) =>
      "\x7b\n" ++ dumpFields (lvl + 1) (f :: fs) ++ "\n" ++ indentStr lvl ++ "\x7d"

def dumpItems (lvl : Nat) : List Json → String
  | [] => ""
  | [x] => indentStr lvl ++ dumpJson lvl x
  | x :: y :: xs => indentStr lvl ++ dumpJson lvl x ++ ",\n" ++ dumpItems lvl (y :: xs)

def dumpFields (lvl : Nat) : List (String × Json) → String
  | [] => ""
  | [(k, v)] => indentStr lvl ++ "\x22" ++ k ++ "\x22: " ++ dumpJson lvl v
  | (k, v) :: f :: fs =>
      indentStr lvl ++ "\x22" ++ k ++ "\x22: " ++ dumpJson lvl v ++ ",\n" ++
        dumpFields lvl (f :: fs)

end

/-- `Tagged.as_json()`. -/
def Tagged.as_json (t : Tagged) : Json :=
  messageToDictTagged t.r

/-- `Tagged.as_json_str()`. -/
def Tagged.as_json_str (t : Tagged) : String :=
  dumpJson 0 (messageToDictTagged t.r)

/-- `Tokenized.as_json()`. -/
def Tokenized.as_json (t : Tokenized) : Json :=
  messageToDictTokenized t.r

/-- `Tokenized.as_json_str()`. -/
def Tokenized.as_json_str (t : Tokenized) : String :=
  dumpJson 0 (messageToDictTokenized t.r)

/-! ## Transport failures and their classification

`grpc.StatusCode` and `grpc.RpcError` are external; an error is a status
code plus the optional server detail string the handlers read. -/

inductive StatusCode
  | ok | cancelled | unknown | invalidArgument | deadlineExceeded | notFound
  | alreadyExists | permissionDenied | unauthenticated | resourceExhausted
  | failedPrecondition | aborted | outOfRange | unimplemented | internal
  | unavailable | dataLoss
deriving DecidableEq, Repr

structure RpcError where
  code : StatusCode
  details : Option String
deriving DecidableEq, Repr

/-- What a `_handle_grpc_error` method does: raise a new classified
`Exception(message) from e`, or re-raise the original error unchanged. -/
inductive HandleOutcome
  | classified (message : String) (cause : RpcError)
  | reraised (e : RpcError)
deriving DecidableEq, Repr

/-- `server_message = details if details else "..."` (Python truthiness:
`None` and the empty string fall back to the default text). -/
def serverMessage (details : Option String) : String :=
  match details with
  | some d => if d = "" then "서버에서 추가 메시지를 제공하지 않았습니다." else d
  | none => "서버에서 추가 메시지를 제공하지 않았습니다."

/-- `BareunLanguageServiceClient._handle_grpc_error` (`_lang_service_client.py`
lines 127-142): PERMISSION_DENIED, UNAVAILABLE and INVALID_ARGUMENT are
classified; any other status re-raises the original error (the assembled
unknown-error message is dead code there, as `raise e` precedes it). -/
def clientHandleGrpcError (apikey host : String) (port : Int) (e : RpcError) : HandleOutcome :=
  let sm := serverMessage e.details
  if e.code = .permissionDenied then
    .classified ("\n입력한 API KEY가 정확한지 확인해 주세요.\n > APIKEY: " ++ apikey ++
      "\n서버 메시지: " ++ sm) e
  else if e.code = .unavailable then
    .classified ("\n서버에 연결할 수 없습니다. 입력한 서버주소 [" ++ host ++ ":" ++
      toString port ++ "]가 정확한지 확인해 주세요.\n서버 메시지: " ++ sm) e
  else if e.code = .invalidArgument then
    .classified ("\n잘못된 요청이 서버로 전송되었습니다. 입력 데이터를 확인하세요.\n서버 메시지: " ++ sm) e
  else
    .reraised e

/-- `Tagger._handle_grpc_error` (`_tagger.py` lines 175-187): only
PERMISSION_DENIED and UNAVAILABLE are classified; everything else is
re-raised unchanged. -/
def taggerHandleGrpcError (apikey host : String) (port : Int) (e : RpcError) : HandleOutcome :=
  let sm := serverMessage e.details
  if e.code = .permissionDenied then
    .classified ("\n입력한 API KEY가 정확한지 확인해 주세요.\n > APIKEY: " ++ apikey ++
      "\n서버 메시지: " ++ sm) e
  else if e.code = .unavailable then
    .classified ("\n서버에 연결할 수 없습니다. 입력한 서버주소 [" ++ host ++ ":" ++
      toString port ++ "]가 정확한지 확인해 주세요.\n서버 메시지: " ++ sm) e
  else
    .reraised e

/-- The failure surfaced by a facade call (`Tagger.tag` + its client):
the client handler runs inside `analyze_syntax`; a classified failure is a
plain `Exception` that passes through the facade's `except grpc.RpcError`
untouched, while a re-raised `RpcError` is caught again by the facade's own
handler. -/
def facadeSurfacedFailure (apikey host : String) (port : Int) (e : RpcError) : HandleOutcome :=
  match clientHandleGrpcError apikey host port e with
  | .classified m c => .classified m c
  | .reraised e1 => taggerHandleGrpcError apikey host port e1

/-- Substring test on strings (via the underlying character lists). -/
def strContainsB (hay needle : String) : Bool :=
  hay.data.tails.any fun t => needle.data.isPrefixOf t

/-- Models Python `str.lower()` (ASCII is all the client compares). -/
def strLower (s : String) : String :=
  String.mk (s.data.map Char.toLower)

/-- Models Python `str.startswith(pre)`. -/
def strStartsWith (s pre : String) : Bool :=
  pre.data.isPrefixOf s.data

/-- Models Python `str.strip()`: remove leading and trailing whitespace. -/
def pyStrip (s : String) : String :=
  String.mk ((s.data.dropWhile Char.isWhitespace).reverse.dropWhile
    Char.isWhitespace).reverse

/-! ## Channels and service clients -/

/-- The kind of transport channel a client builds: an encrypted channel
rooted in the embedded `CA_BUNDLE`, or a plaintext one. -/
inductive ChannelKind
  | secureWithCA
  | insecure
deriving DecidableEq, Repr

/-- Python errors raised by the constructors and accessors modelled here. -/
inductive PyError
  | valueError (msg : String)
  | attributeError (msg : String)
  | typeError (msg : String)
deriving DecidableEq, Repr

namespace BareunLanguageServiceClient

/-- `BareunLanguageServiceClient._create_secure_channel`
(`_lang_service_client.py` lines 103-125): encrypted with the embedded CA
bundle iff the lower-cased host starts with `api.bareun.ai`. -/
def create_secure_channel (host : String) (_port : Int) : ChannelKind :=
  if strStartsWith (strLower host) "api.bareun.ai" then .secureWithCA else .insecure

end BareunLanguageServiceClient

/-- State built by `BareunLanguageServiceClient.__init__`
(`_lang_service_client.py` lines 84-101). -/
structure BareunLanguageServiceClient where
  apikey : String
  metadata : List (String × String)
  host : String
  port : Int
  channel : ChannelKind
deriving DecidableEq, Repr

/-- `BareunLanguageServiceClient.__init__`. -/
def BareunLanguageServiceClient.init (apikey host : String) (port : Int) :
    BareunLanguageServiceClient :=
  { apikey := apikey
    metadata := [("api-key", apikey), ("user-agent", "bareunpy/" ++ version)]
    host := host
    port := port
    channel := BareunLanguageServiceClient.create_secure_channel host port }

/-- State built by `CustomDictionaryServiceClient.__init__`
(`_custom_dict_client.py` lines 42-55): it receives an existing channel and
attaches only the api-key metadata entry. -/
structure CustomDictionaryServiceClient where
  channel : ChannelKind
  apikey : String
  metadata : List (String × String)
deriving DecidableEq, Repr

/-- `CustomDictionaryServiceClient.__init__`. -/
def CustomDictionaryServiceClient.init (channel : ChannelKind) (apikey : String) :
    CustomDictionaryServiceClient :=
  { channel := channel
    apikey := apikey
    metadata := [("api-key", apikey)] }

namespace BareunRevisionServiceClient

/-- `BareunRevisionServiceClient._create_secure_channel`
(`_revision_service_client.py` lines 33-55): same selection rule as the
language-service client. -/
def create_secure_channel (host : String) (_port : Int) : ChannelKind :=
  if strStartsWith (strLower host) "api.bareun.ai" then .secureWithCA else .insecure

end BareunRevisionServiceClient

/-- State built by `BareunRevisionServiceClient.__init__`
(`_revision_service_client.py` lines 14-31): a fixed `bareun-revision-client`
user-agent, with no version embedded. -/
structure BareunRevisionServiceClient where
  apikey : String
  host : String
  port : Int
  channel : ChannelKind
  metadata : List (String × String)
deriving DecidableEq, Repr

/-- `BareunRevisionServiceClient.__init__`. -/
def BareunRevisionServiceClient.init (apikey host : String) (port : Int) :
    BareunRevisionServiceClient :=
  { apikey := apikey
    host := host
    port := port
    channel := BareunRevisionServiceClient.create_secure_channel host port
    metadata := [("api-key", apikey), ("user-agent", "bareun-revision-client")] }

/-! ## CustomDict (bareunpy/_custom_dict.py)

Python `set` objects are modelled as `Finset String`; the protobuf `DictSet`
map is modelled by its list of keys. -/

/-- Local state of a `CustomDict`: the five word sets plus the domain. -/
structure CustomDict where
  domain : String
  np_set : Finset String
  cp_set : Finset String
  cp_caret_set : Finset String
  vv_set : Finset String
  va_set : Finset String
deriving DecidableEq

/-- `CustomDict.__init__`: every set starts empty. -/
def CustomDict.init (domain : String) : CustomDict :=
  { domain := domain, np_set := ∅, cp_set := ∅, cp_caret_set := ∅,
    vv_set := ∅, va_set := ∅ }

/-- The three `DictSet` fields of the remote `pb.CustomDictionary` that
`CustomDict.load` reads, each given by its key list. -/
structure CustomDictionaryPb where
  np_set : List String
  cp_set : List String
  cp_caret_set : List String
deriving DecidableEq, Repr

/-- `pb_map_to_set` (`_custom_dict.py` lines 33-46): the set of keys of a
`DictSet` items map. -/
def pb_map_to_set (keys : List String) : Finset String :=
  keys.toFinset

/-- `CustomDict.load` (`_custom_dict.py` lines 225-235): the remote fetch
either yields a dictionary (`some d`) or fails (`none`); a failure is
swallowed by the bare `except` and the state is returned unchanged. Only
`np_set`, `cp_caret_set` and `cp_set` are overwritten on success. -/
def CustomDict.load (cd : CustomDict) (fetch : Option CustomDictionaryPb) : CustomDict :=
  match fetch with
  | none => cd
  | some d =>
      { cd with
        np_set := pb_map_to_set d.np_set
        cp_caret_set := pb_map_to_set d.cp_caret_set
        cp_set := pb_map_to_set d.cp_set }

/-- `CustomDict.clear` (`_custom_dict.py` lines 238-252): clears `np_set`,
`cp_set` and `cp_caret_set` (not `vv_set` or `va_set`), then calls
`stub.remove([domain])`; `remoteRemove` models the remote deletion call,
mapping the requested domain names to the confirmed deleted names. -/
def CustomDict.clear (cd : CustomDict) (remoteRemove : List String → List String) :
    CustomDict × List String :=
  ({ cd with np_set := ∅, cp_set := ∅, cp_caret_set := ∅ },
   remoteRemove [cd.domain])

/-! ## Facade constructors (Tagger, Tokenizer, Corrector) -/

/-- State built by `Tagger.__init__` (`_tagger.py` lines 148-173).
`channel` models the instance attribute `self.channel`, which
`Tagger.__init__` never assigns: it stays `none`, and reading it raises
`AttributeError` (see `Tagger.custom_dict`). -/
structure Tagger where
  host : String
  port : Int
  apikey : String
  client : BareunLanguageServiceClient
  custom_dicts : List String
  internal_custom_dicts : List (String × CustomDict)
  channel : Option ChannelKind
deriving DecidableEq

/-- `Tagger.__init__`: host/port defaulting, then the api-key check (which
raises before any client or channel is built), then the client. -/
def Tagger.init (apikey : Option String) (host : String) (port : Option Int)
    (custom_dicts : List String) : Except PyError Tagger :=
  let host1 := if host ≠ "" then pyStrip host else host
  let host2 := if host1 = "" then "api.bareun.ai" else host1
  let port2 := match port with
    | some p => p
    | none => if strStartsWith (strLower host2) "api.bareun.ai" then 443 else 5656
  match apikey with
  | none => .error (.valueError "an apikey must be provided!")
  | some k =>
      if k.length = 0 then .error (.valueError "an apikey must be provided!")
      else
        .ok { host := host2
              port := port2
              apikey := k
              client := BareunLanguageServiceClient.init k host2 port2
              custom_dicts := custom_dicts
              internal_custom_dicts := []
              channel := none }

/-- `Tagger.custom_dict` (`_tagger.py` lines 209-218): rejects an empty or
absent name; returns a memoized snapshot when present; otherwise evaluates
`CustomDict(self.apikey, name, self.channel)` — and `self.channel` was never
assigned, so the attribute read fails. -/
def Tagger.custom_dict (t : Tagger) (name : Option String) :
    Except PyError (CustomDict × Tagger) :=
  match name with
  | none => .error (.valueError "invalid name for custom dict")
  | some n =>
      if n = "" then .error (.valueError "invalid name for custom dict")
      else
        match t.internal_custom_dicts.lookup n with
        | some cd => .ok (cd, t)
        | none =>
            match t.channel with
            | none => .error (.attributeError "Tagger object has no attribute channel")
            | some _ch =>
                let cd := CustomDict.init n
                .ok (cd, { t with internal_custom_dicts :=
                  t.internal_custom_dicts ++ [(n, cd)] })

/-- State built by `Tokenizer.__init__` (`_tokenizer.py` lines 196-217). -/
structure Tokenizer where
  host : String
  port : Int
  apikey : String
  client : BareunLanguageServiceClient
deriving DecidableEq, Repr

/-- `Tokenizer.__init__`: same defaulting and api-key check as the tagger
(the error text differs: `a apikey must be provided!`). -/
def Tokenizer.init (apikey : Option String) (host : String) (port : Option Int) :
    Except PyError Tokenizer :=
  let host1 := if host ≠ "" then pyStrip host else host
  let host2 := if host1 = "" then "api.bareun.ai" else host1
  let port2 := match port with
    | some p => p
    | none => if strStartsWith (strLower host2) "api.bareun.ai" then 443 else 5656
  match apikey with
  | none => .error (.valueError "a apikey must be provided!")
  | some k =>
      if k.length = 0 then .error (.valueError "a apikey must be provided!")
      else
        .ok { host := host2
              port := port2
              apikey := k
              client := BareunLanguageServiceClient.init k host2 port2 }

/-- State assembled by `Corrector.__init__` before it instantiates the
revision client (`_corrector.py` lines 53-82): default host
`nlp.bareun.ai`, default port 5656, and — unconditionally — a plaintext
`grpc.insecure_channel`. No api-key validation is performed. -/
structure Corrector where
  host : String
  port : Int
  channel : ChannelKind
deriving DecidableEq, Repr

/-- `Corrector.__init__` lines 62-82: defaulting and channel creation. -/
def Corrector.initChannel (_apikey : Option String) (host : Option String)
    (port : Option Int) : Corrector :=
  let host1 := match host with
    | some h => if h ≠ "" then pyStrip h else h
    | none => ""
  let host2 := if host1 = "" then "nlp.bareun.ai" else host1
  let port2 := match port with
    | some p => p
    | none => 5656
  { host := host2, port := port2, channel := .insecure }

/-- `Corrector.__init__` as a whole: after building the channel, line 83
evaluates `BareunRevisionServiceClient(self.channel, apikey, self.host,
self.port)` — four positional arguments for a constructor declared with
three parameters (`_revision_service_client.py` line 14), so construction
always ends in a `TypeError`, whatever the credential. -/
def Corrector.init (apikey : Option String) (host : Option String)
    (port : Option Int) : Except PyError Corrector :=
  let _st := Corrector.initChannel apikey host port
  .error (.typeError
    "BareunRevisionServiceClient.init takes 3 positional arguments but 4 were given")

/-- The flat, order-preserving sequence of all segments of a tokenization
response (sentences → tokens → segments), the base traversal the extractors
specialize. -/
def TokenizeResponse.allSegments (r : TokenizeResponse) : List Segment :=
  r.sentences.flatMap fun s => s.tokens.flatMap fun token => token.segments

/-- Concrete tokenization response shaped after the repository's test data
(`tests/test_tokenizer.py`): four tokens with segment counts 2, 1, 2 and 5. -/
def sampleTokenized : Tokenized :=
  { phrase := "오늘은 정말 추운 날이네요."
    r := { sentences := [
      { tokens := [
          { segments := [⟨⟨"오늘"⟩, "N"⟩, ⟨⟨"은"⟩, "J"⟩] },
          { segments := [⟨⟨"정말"⟩, "A"⟩] },
          { segments := [⟨⟨"춥"⟩, "V"⟩, ⟨⟨"ㄴ"⟩, "E"⟩] },
          { segments := [⟨⟨"날"⟩, "N"⟩, ⟨⟨"이"⟩, "V"⟩, ⟨⟨"네"⟩, "E"⟩,
                         ⟨⟨"요"⟩, "J"⟩, ⟨⟨"."⟩, "S"⟩] }] }] } }

/-! ## Shared helper lemmas -/

/-- A string contains any infix of its character list. -/
theorem strContainsB_of_infix (hay needle : String) (h : needle.data <:+: hay.data) :
    strContainsB hay needle = true := by
  obtain ⟨s, t, hst⟩ := h
  simp only [strContainsB, List.any_eq_true]
  refine ⟨needle.data ++ t, ?_, ?_⟩
  · rw [List.mem_tails]
    exact ⟨s, by rw [← List.append_assoc]; exact hst⟩
  · rw [List.isPrefixOf_iff_prefix]
    exact List.prefix_append _ _

/-! ## C1 -/

/-- C1 counterexample: for the segment (`오늘`, hint `N`), `Tokenized._segment`
with `join = true`, `detail = false` returns the bare text `오늘`, not the
string `오늘/N` = "text/category" the claimed four-mode matrix fixes. -/
theorem c1_counterexample :
    Tokenized.segFormat ⟨⟨"오늘"⟩, "N"⟩ true false = SegResult.s "오늘" ∧
    SegResult.s "오늘" ≠ SegResult.s ("오늘" ++ "/" ++ "N") := by
  exact ⟨rfl, by decide⟩

/-- C1 (amended): `Tagged._pos` follows the four-mode matrix — (join=false,
detail=false) a (text, category) pair; (join=false, detail=true) a tuple with
the extra fields; (join=true, detail=false) `"text/category"`; (join=true,
detail=true) `"text/category:prob#oov"` when the probability is positive and
the out-of-vocab field non-default. `Tokenized._segment` does not: it returns
the bare text for join=false/detail=false and join=true/detail=false, the
(text, hint) pair for join=false/detail=true, and `"text/hint"` only for
join=true/detail=true. -/
theorem c1_four_mode_formatters (m : Morpheme) (sg : Segment) :
    Tagged.posFormat m false false = .pair m.text.content (tagName m.tag) ∧
    Tagged.posFormat m false true =
      .quad m.text.content (tagName m.tag) (oovName m.out_of_vocab) m.probability ∧
    Tagged.posFormat m true false = .s (m.text.content ++ "/" ++ tagName m.tag) ∧
    (0 < m.probability → m.out_of_vocab ≠ 0 →
      Tagged.posFormat m true true =
        .s (m.text.content ++ "/" ++ tagName m.tag ++ (":" ++ fmtProb m.probability) ++
            ("#" ++ oovName m.out_of_vocab))) ∧
    Tokenized.segFormat sg false false = .s sg.text.content ∧
    Tokenized.segFormat sg false true = .pair sg.text.content sg.hint ∧
    Tokenized.segFormat sg true false = .s sg.text.content ∧
    Tokenized.segFormat sg true true = .s (sg.text.content ++ "/" ++ sg.hint) := by
  refine ⟨rfl, rfl, rfl, ?_, rfl, rfl, rfl, rfl⟩
  intro hp ho
  simp [Tagged.posFormat, hp, ho]

/-- C1 witness: the formatters evaluated at a concrete morpheme (probability
1/2, out-of-vocab 1) and a concrete segment. -/
theorem c1_four_mode_formatters_witness :
    Tagged.posFormat ⟨⟨"햇빛"⟩, Tag.NNG, 1, (1 : Rat) / 2⟩ true true =
      PosResult.s "햇빛/NNG:0.500#OUT_OF_VOCAB" ∧
    Tokenized.segFormat ⟨⟨"오늘"⟩, "N"⟩ true true = SegResult.s "오늘/N" := by
  have h := c1_four_mode_formatters ⟨⟨"햇빛"⟩, Tag.NNG, 1, (1 : Rat) / 2⟩ ⟨⟨"오늘"⟩, "N"⟩
  refine ⟨?_, ?_⟩
  · rw [h.2.2.2.1 (by norm_num) (by decide)]
    unfold fmtProb
    rw [show (⌊((1 : ℚ) / 2 * 1000 + 1 / 2 : ℚ)⌋ : ℤ) = 500 from by norm_num]
    decide
  · rw [h.2.2.2.2.2.2.2]
    rfl

/-! ## C2 -/

/-- C2 counterexample: on the canonical empty response, `as_json_str` returns
the JSON rendering of the default mapping — a non-empty string, not an empty
sequence or the empty string as the claim requires of every listed accessor. -/
theorem c2_counterexample :
    Tagged.as_json_str ⟨"", ⟨[]⟩⟩ = "\x7b\n  \x22sentences\x22: []\n\x7d" ∧
    Tagged.as_json_str ⟨"", ⟨[]⟩⟩ ≠ "" := by
  exact ⟨rfl, by decide⟩

/-- C2 (amended): over a response with zero sentences — including the
canonical empty response substituted for an absent result — every sequence
accessor of `Tagged` and `Tokenized` returns the empty sequence and none
fails; `as_json` returns the default mapping with an empty sentence list and
`as_json_str` its (non-empty) JSON text. -/
theorem c2_empty_result_accessors (t : Tagged) (z : Tokenized) (p : String)
    (ht : t.r.sentences = []) (hz : z.r.sentences = []) :
    t.sentences = [] ∧
    (∀ j d : Bool, t.pos true j d = .flat [] ∧ t.pos false j d = .grouped []) ∧
    t.morphs = [] ∧ t.nouns = [] ∧ t.verbs = [] ∧
    t.as_json = Json.obj [("sentences", Json.arr [])] ∧
    t.as_json_str = "\x7b\n  \x22sentences\x22: []\n\x7d" ∧
    Tagged.init p none = ⟨"", ⟨[]⟩⟩ ∧
    z.sentences = [] ∧
    (∀ j d : Bool, z.seg true j d = .flat [] ∧ z.seg false j d = .grouped []) ∧
    z.segments = [] ∧ z.nouns = [] ∧ z.verbs = [] ∧ z.predicates = [] ∧
    z.substantives = [] ∧ z.symbols = [] ∧ z.adverbs = [] ∧ z.prenouns = [] ∧
    z.postpositions = [] ∧ z.interjections = [] ∧ z.endings = [] ∧
    z.as_json = Json.obj [("sentences", Json.arr [])] ∧
    z.as_json_str = "\x7b\n  \x22sentences\x22: []\n\x7d" ∧
    Tokenized.init p none = ⟨"", ⟨[]⟩⟩ := by
  obtain ⟨ph, rt⟩ := t
  obtain ⟨pz, rz⟩ := z
  obtain ⟨ss⟩ := rt
  obtain ⟨zz⟩ := rz
  have hss : ss = [] := ht
  have hzz : zz = [] := hz
  subst hss
  subst hzz
  exact ⟨rfl, fun j d => ⟨rfl, rfl⟩, rfl, rfl, rfl, rfl, rfl, rfl, rfl,
    fun j d => ⟨rfl, rfl⟩, rfl, rfl, rfl, rfl, rfl, rfl, rfl, rfl, rfl, rfl,
    rfl, rfl, rfl, rfl⟩

/-- C2 witness: the empty-result accessors evaluated at the canonical empty
`Tagged` and `Tokenized` values. -/
theorem c2_empty_result_accessors_witness :
    Tagged.sentences ⟨"", ⟨[]⟩⟩ = [] ∧ Tokenized.segments ⟨"", ⟨[]⟩⟩ = [] :=
  ⟨(c2_empty_result_accessors ⟨"", ⟨[]⟩⟩ ⟨"", ⟨[]⟩⟩ "x" rfl rfl).1,
   (c2_empty_result_accessors ⟨"", ⟨[]⟩⟩ ⟨"", ⟨[]⟩⟩ "x" rfl
     rfl).2.2.2.2.2.2.2.2.2.2.1⟩

/-! ## C3 -/

/-- C3: a transport failure surfaced by a facade call is classified by
status: PERMISSION_DENIED yields a classified failure whose message embeds
the configured API key; UNAVAILABLE one embedding the configured host and
port; INVALID_ARGUMENT (with a non-empty server-supplied detail) one
embedding that detail; every other status re-raises the original error
unchanged, not wrapped. -/
theorem c3_error_classification (apikey host : String) (port : Int) (e : RpcError) :
    (e.code = .permissionDenied →
      ∃ m, facadeSurfacedFailure apikey host port e = .classified m e ∧
        strContainsB m apikey = true) ∧
    (e.code = .unavailable →
      ∃ m, facadeSurfacedFailure apikey host port e = .classified m e ∧
        strContainsB m host = true ∧ strContainsB m (toString port) = true) ∧
    (∀ d, e.code = .invalidArgument → e.details = some d → d ≠ "" →
      ∃ m, facadeSurfacedFailure apikey host port e = .classified m e ∧
        strContainsB m d = true) ∧
    (e.code ≠ .permissionDenied → e.code ≠ .unavailable →
      e.code ≠ .invalidArgument →
      facadeSurfacedFailure apikey host port e = .reraised e) := by
  refine ⟨?_, ?_, ?_, ?_⟩
  · intro h
    simp only [facadeSurfacedFailure, clientHandleGrpcError, h, if_pos, if_true,
      reduceIte]
    refine ⟨_, rfl, ?_⟩
    refine strContainsB_of_infix _ _
      ⟨("\n입력한 API KEY가 정확한지 확인해 주세요.\n > APIKEY: ").data,
       (("\n서버 메시지: ") ++ serverMessage e.details).data, ?_⟩
    simp [String.data_append, List.append_assoc]
  · intro h
    simp only [facadeSurfacedFailure, clientHandleGrpcError, h, reduceIte]
    refine ⟨_, rfl, ?_, ?_⟩
    · refine strContainsB_of_infix _ _
        ⟨("\n서버에 연결할 수 없습니다. 입력한 서버주소 [").data,
         ((":") ++ toString port ++ ("]가 정확한지 확인해 주세요.\n서버 메시지: ") ++
           serverMessage e.details).data, ?_⟩
      simp [String.data_append, List.append_assoc]
    · refine strContainsB_of_infix _ _
        ⟨(("\n서버에 연결할 수 없습니다. 입력한 서버주소 [") ++ host ++ (":")).data,
         (("]가 정확한지 확인해 주세요.\n서버 메시지: ") ++ serverMessage e.details).data, ?_⟩
      simp [String.data_append, List.append_assoc]
  · intro d h hd hne
    simp only [facadeSurfacedFailure, clientHandleGrpcError, h, reduceIte]
    refine ⟨_, rfl, ?_⟩
    refine strContainsB_of_infix _ _
      ⟨("\n잘못된 요청이 서버로 전송되었습니다. 입력 데이터를 확인하세요.\n서버 메시지: ").data, [], ?_⟩
    simp [String.data_append, serverMessage, hd, hne]
  · intro h1 h2 h3
    simp only [facadeSurfacedFailure, clientHandleGrpcError, taggerHandleGrpcError,
      h1, h2, h3, if_neg, reduceIte, if_false]

/-- C3 witness: a PERMISSION_DENIED failure is classified with the key in
the message, and an INTERNAL failure is re-raised unchanged. -/
theorem c3_error_classification_witness :
    facadeSurfacedFailure "KEY" "localhost" 5656 ⟨StatusCode.internal, none⟩ =
      HandleOutcome.reraised ⟨StatusCode.internal, none⟩ ∧
    ∃ m, facadeSurfacedFailure "KEY" "localhost" 5656
        ⟨StatusCode.permissionDenied, none⟩ =
        HandleOutcome.classified m ⟨StatusCode.permissionDenied, none⟩ ∧
      strContainsB m "KEY" = true :=
  ⟨(c3_error_classification "KEY" "localhost" 5656 ⟨.internal, none⟩).2.2.2
      (by decide) (by decide) (by decide),
   (c3_error_classification "KEY" "localhost" 5656 ⟨.permissionDenied, none⟩).1 rfl⟩

/-! ## C4 -/

/-- C4 counterexample: on a snapshot whose verb set holds `카톡하` and whose
adjective set holds `드라마틱하`, `clear()` leaves both sets untouched — it
does not empty all five local word sets. -/
theorem c4_counterexample :
    ¬ ((CustomDict.clear ⟨"law", ∅, ∅, ∅, {"카톡하"}, {"드라마틱하"}⟩
          (fun ds => ds)).1.np_set = ∅ ∧
       (CustomDict.clear ⟨"law", ∅, ∅, ∅, {"카톡하"}, {"드라마틱하"}⟩
          (fun ds => ds)).1.cp_set = ∅ ∧
       (CustomDict.clear ⟨"law", ∅, ∅, ∅, {"카톡하"}, {"드라마틱하"}⟩
          (fun ds => ds)).1.cp_caret_set = ∅ ∧
       (CustomDict.clear ⟨"law", ∅, ∅, ∅, {"카톡하"}, {"드라마틱하"}⟩
          (fun ds => ds)).1.vv_set = ∅ ∧
       (CustomDict.clear ⟨"law", ∅, ∅, ∅, {"카톡하"}, {"드라마틱하"}⟩
          (fun ds => ds)).1.va_set = ∅) := by
  decide

/-- C4 (amended): `clear()` empties the proper-noun, compound-noun and
compound-noun-split sets, leaves the verb and adjective sets unchanged,
requests remote deletion of the snapshot's domain name, and returns the
confirmed deleted names the remote reports for that request. -/
theorem c4_clear (cd : CustomDict) (remoteRemove : List String → List String) :
    (CustomDict.clear cd remoteRemove).1.np_set = ∅ ∧
    (CustomDict.clear cd remoteRemove).1.cp_set = ∅ ∧
    (CustomDict.clear cd remoteRemove).1.cp_caret_set = ∅ ∧
    (CustomDict.clear cd remoteRemove).1.vv_set = cd.vv_set ∧
    (CustomDict.clear cd remoteRemove).1.va_set = cd.va_set ∧
    (CustomDict.clear cd remoteRemove).1.domain = cd.domain ∧
    (CustomDict.clear cd remoteRemove).2 = remoteRemove [cd.domain] :=
  ⟨rfl, rfl, rfl, rfl, rfl, rfl, rfl⟩

/-! ## C5 -/

/-- C5: `load` with a successful fetch overwrites exactly the proper-noun,
compound-noun and compound-noun-split sets from the remote dictionary,
leaving the verb and adjective sets (and the domain) unchanged; with a
failed fetch the failure is discarded and all five sets are unchanged. -/
theorem c5_load_partial_pull (cd : CustomDict) (d : CustomDictionaryPb) :
    (CustomDict.load cd (some d)).np_set = pb_map_to_set d.np_set ∧
    (CustomDict.load cd (some d)).cp_set = pb_map_to_set d.cp_set ∧
    (CustomDict.load cd (some d)).cp_caret_set = pb_map_to_set d.cp_caret_set ∧
    (CustomDict.load cd (some d)).vv_set = cd.vv_set ∧
    (CustomDict.load cd (some d)).va_set = cd.va_set ∧
    (CustomDict.load cd (some d)).domain = cd.domain ∧
    CustomDict.load cd none = cd :=
  ⟨rfl, rfl, rfl, rfl, rfl, rfl, rfl⟩

/-- A non-empty string has non-zero length. -/
theorem strLength_ne_zero (s : String) (h : s ≠ "") : s.length ≠ 0 := by
  intro h0
  apply h
  have hl : s.data.length = 0 := h0
  have hd : s.data = [] := List.length_eq_zero.mp hl
  cases s with
  | mk d => cases hd; rfl

/-! ## C6 -/

/-- C6 counterexample: the custom-dictionary service client attaches a
single metadata entry (the api-key header only), not two. -/
theorem c6_counterexample :
    ((CustomDictionaryServiceClient.init ChannelKind.insecure "KEY").metadata).length ≠ 2 := by
  decide

/-- C6 (amended): the language-service client attaches exactly two metadata
entries — the api-key header and a user-agent embedding the SDK version;
the custom-dictionary client attaches only the api-key header; the revision
client attaches the api-key header and the fixed identifier
`bareun-revision-client`, which does not embed the version. -/
theorem c6_metadata (apikey host : String) (port : Int) (channel : ChannelKind) :
    (BareunLanguageServiceClient.init apikey host port).metadata =
      [("api-key", apikey), ("user-agent", "bareunpy/" ++ version)] ∧
    strContainsB ("bareunpy/" ++ version) version = true ∧
    (CustomDictionaryServiceClient.init channel apikey).metadata =
      [("api-key", apikey)] ∧
    (BareunRevisionServiceClient.init apikey host port).metadata =
      [("api-key", apikey), ("user-agent", "bareun-revision-client")] ∧
    strContainsB "bareun-revision-client" version = false := by
  exact ⟨rfl, by decide, rfl, rfl, by decide⟩

/-! ## C7 -/

/-- C7 counterexample: a Corrector constructed with the production host
`api.bareun.ai` still builds a plaintext channel, not the encrypted one the
claim requires for every facade variant. -/
theorem c7_counterexample :
    (Corrector.initChannel (some "koba-KEY") (some "api.bareun.ai")
      (some 443)).channel ≠ ChannelKind.secureWithCA := by
  decide

/-- C7 (amended): the language-service and revision-service clients build an
encrypted channel rooted in the embedded CA bundle exactly when the
lower-cased host starts with `api.bareun.ai`, and a plaintext channel
otherwise; the Corrector facade instead always builds a plaintext channel,
whatever the host. -/
theorem c7_channel_selection (k host : String) (p : Int)
    (apikey hostO : Option String) (port : Option Int) :
    ((BareunLanguageServiceClient.init k host p).channel = .secureWithCA ↔
      strStartsWith (strLower host) "api.bareun.ai" = true) ∧
    ((BareunRevisionServiceClient.init k host p).channel = .secureWithCA ↔
      strStartsWith (strLower host) "api.bareun.ai" = true) ∧
    (Corrector.initChannel apikey hostO port).channel = .insecure := by
  refine ⟨?_, ?_, rfl⟩
  · simp only [BareunLanguageServiceClient.init,
      BareunLanguageServiceClient.create_secure_channel]
    cases hc : strStartsWith (strLower host) "api.bareun.ai" <;> simp [hc]
  · simp only [BareunRevisionServiceClient.init,
      BareunRevisionServiceClient.create_secure_channel]
    cases hc : strStartsWith (strLower host) "api.bareun.ai" <;> simp [hc]

/-! ## C8 -/

/-- C8 counterexample: constructing a Corrector with a non-empty credential
does not succeed, and an empty credential yields exactly the same outcome —
no credential-specific configuration error is raised. -/
theorem c8_counterexample :
    (Corrector.init (some "koba-KEY") none none).isOk = false ∧
    Corrector.init (some "") none none = Corrector.init (some "koba-KEY") none none := by
  exact ⟨rfl, rfl⟩

/-- C8 (amended): Tagger and Tokenizer reject a missing or empty credential
with a ValueError raised before any client or channel is constructed, and
succeed with any non-empty credential; the Corrector performs no credential
validation — it builds its (plaintext) channel regardless of the credential
and construction then always fails with the TypeError from the arity
mismatch when instantiating the revision client. -/
theorem c8_credential_validation (k host : String) (port : Option Int)
    (dicts : List String) (a1 a2 hostO : Option String) :
    Tagger.init none host port dicts =
      .error (.valueError "an apikey must be provided!") ∧
    Tagger.init (some "") host port dicts =
      .error (.valueError "an apikey must be provided!") ∧
    (k ≠ "" → (Tagger.init (some k) host port dicts).isOk = true) ∧
    Tokenizer.init none host port =
      .error (.valueError "a apikey must be provided!") ∧
    Tokenizer.init (some "") host port =
      .error (.valueError "a apikey must be provided!") ∧
    (k ≠ "" → (Tokenizer.init (some k) host port).isOk = true) ∧
    Corrector.init a1 hostO port = Corrector.init a2 hostO port ∧
    (Corrector.init a1 hostO port).isOk = false ∧
    (Corrector.initChannel a1 hostO port).channel = .insecure := by
  refine ⟨rfl, rfl, ?_, rfl, rfl, ?_, rfl, rfl, rfl⟩
  · intro hk
    simp only [Tagger.init]
    rw [if_neg (strLength_ne_zero k hk)]
    rfl
  · intro hk
    simp only [Tokenizer.init]
    rw [if_neg (strLength_ne_zero k hk)]
    rfl

/-- C8 witness: construction with a concrete non-empty credential succeeds
for Tagger and Tokenizer. -/
theorem c8_credential_validation_witness :
    (Tagger.init (some "koba-KEY") "" none []).isOk = true ∧
    (Tokenizer.init (some "koba-KEY") "" none).isOk = true :=
  ⟨(c8_credential_validation "koba-KEY" "" none [] none none none).2.2.1
      (by decide),
   (c8_credential_validation "koba-KEY" "" none [] none none none).2.2.2.2.2.1
      (by decide)⟩

/-! ## C9 -/

/-- C9: evaluating `Tagger.custom_dict` at the failing input — a freshly
constructed Tagger and the name `law` — yields the AttributeError caused by
the never-assigned `self.channel`, instead of constructing and memoizing a
snapshot; the empty-or-absent-name ValueError half of the claim does hold. -/
theorem c9_custom_dict_attribute_error :
    (Tagger.init (some "koba-KEY") "" none []).bind
      (fun t => (t.custom_dict (some "law")).map Prod.fst) =
      .error (.attributeError "Tagger object has no attribute channel") ∧
    (Tagger.init (some "koba-KEY") "" none []).bind
      (fun t => (t.custom_dict (some "")).map Prod.fst) =
      .error (.valueError "invalid name for custom dict") ∧
    (Tagger.init (some "koba-KEY") "" none []).bind
      (fun t => (t.custom_dict none).map Prod.fst) =
      .error (.valueError "invalid name for custom dict") := by
  exact ⟨rfl, rfl, rfl⟩

/-! ## C10 -/

/-- Each hint extractor is the hint filter of the flattened segment list. -/
theorem byHint_eq_filter_allSegments (t : Tokenized) (c : String) :
    t.byHint c =
      (t.r.allSegments.filter fun m => m.hint == c).map fun m => m.text.content := by
  simp [Tokenized.byHint, TokenizeResponse.allSegments, List.filter_flatMap,
    List.map_flatMap]

/-- `segments()` is the text of the flattened segment list. -/
theorem segments_eq_map_allSegments (t : Tokenized) :
    t.segments = t.r.allSegments.map fun m => m.text.content := by
  simp [Tokenized.segments, TokenizeResponse.allSegments, List.map_flatMap]

/-- Counting each of the eight hint letters once covers a list of segments
whose hints all lie in the closed hint set. -/
theorem countP_hint_partition (l : List Segment)
    (h : ∀ m ∈ l, m.hint = "N" ∨ m.hint = "V" ∨ m.hint = "A" ∨ m.hint = "S" ∨
      m.hint = "M" ∨ m.hint = "J" ∨ m.hint = "I" ∨ m.hint = "E") :
    l.countP (fun m => m.hint == "N") + l.countP (fun m => m.hint == "V") +
    l.countP (fun m => m.hint == "A") + l.countP (fun m => m.hint == "S") +
    l.countP (fun m => m.hint == "M") + l.countP (fun m => m.hint == "J") +
    l.countP (fun m => m.hint == "I") + l.countP (fun m => m.hint == "E") =
    l.length := by
  induction l with
  | nil => simp
  | cons a t ih =>
      have ha := h a (List.mem_cons_self a t)
      have ih' := ih fun m hm => h m (List.mem_cons_of_mem a hm)
      rcases ha with h1 | h1 | h1 | h1 | h1 | h1 | h1 | h1 <;>
        simp [List.countP_cons, h1] <;> omega

/-- C10: when every segment of the result carries a hint in the closed set
N, V, A, S, M, J, I, E, the eight single-category extractors partition the
flat segment sequence: their lengths sum to the length of `segments()`. -/
theorem c10_category_partition (z : Tokenized)
    (h : ∀ m ∈ z.r.allSegments, m.hint = "N" ∨ m.hint = "V" ∨ m.hint = "A" ∨
      m.hint = "S" ∨ m.hint = "M" ∨ m.hint = "J" ∨ m.hint = "I" ∨ m.hint = "E") :
    z.nouns.length + z.predicates.length + z.adverbs.length + z.symbols.length +
    z.prenouns.length + z.postpositions.length + z.interjections.length +
    z.endings.length = z.segments.length := by
  simp only [Tokenized.nouns, Tokenized.predicates, Tokenized.adverbs,
    Tokenized.symbols, Tokenized.prenouns, Tokenized.postpositions,
    Tokenized.interjections, Tokenized.endings, byHint_eq_filter_allSegments,
    segments_eq_map_allSegments, List.length_map, ← List.countP_eq_length_filter]
  exact countP_hint_partition _ h

/-- C10 witness: the partition evaluated on the sample tokenization
(ten segments, four tokens). -/
theorem c10_category_partition_witness :
    sampleTokenized.nouns.length + sampleTokenized.predicates.length +
    sampleTokenized.adverbs.length + sampleTokenized.symbols.length +
    sampleTokenized.prenouns.length + sampleTokenized.postpositions.length +
    sampleTokenized.interjections.length + sampleTokenized.endings.length =
    sampleTokenized.segments.length :=
  c10_category_partition sampleTokenized (by decide)

end Bareunpy
